import Mathlib

/-!
Shallow embedding of `src/semeio/jobs/scripts/fm_pyscal.py`.

The module is a forward-model adapter: it validates its arguments, resolves a
pair of interpolation values from a parameters file, and delegates to the
external pyscal command line library.  The embedding models the pure decision
logic: the name normalizer ` rm_genkw_prefix`, the resolver
` _get_interpolation_values` and the orchestration in `run`.  File system and
external collaborators are modelled as explicit inputs:

* whether the relperm parameters file exists (`relpermFileExists`),
* whether `parameters.txt` exists (`paramsFileExists`),
* the key/value mapping produced by the external `extract_key_value` parser
  applied to the lines of `parameters.txt` (`fileParams`); the exact line
  syntax is an external collaborator contract and is not modelled,
* the delegated call to `pyscalcli.pyscal_main` is represented by the record
  of arguments passed to it (`PyscalMainCall`).

Python `sys.exit(1)` after logging is modelled by `RunResult.exitError` with
the logged message; an exception escaping `run` is `RunResult.uncaught`.
-/

deriving instance DecidableEq for Except

namespace FmPyscal

/-- A value stored in the Python parameter dictionary: entries parsed from the
parameters file are strings, the magic cases are ints. -/
inductive PyVal
  | str (s : String)
  | int (n : Int)
deriving DecidableEq

/-- MAGIC_NONE: the sentinel meaning "argument not supplied". -/
def MAGIC_NONE : String := "__NONE__"

/-- MAGIC_CASES: key-values added to the dictionary parsed from
parameters.txt, allowing magic interpolation values directly from the ert
config file. -/
def MAGIC_CASES : List (String × PyVal) :=
  [("__BASE__", .int 0),
   ("__LOW__", .int (-1)),
   ("__PESS__", .int (-1)),
   ("__PESSIMISTIC__", .int (-1)),
   ("__HIGH__", .int 1),
   ("__OPT__", .int 1),
   ("__OPTIMISTIC__", .int 1)]

/-- Python `s.split(sep)` for a one-character separator, on the character
list of the string: always returns a nonempty list of (possibly empty)
parts. -/
def splitOnChar (sep : Char) : List Char → List (List Char)
  | [] => [[]]
  | c :: rest =>
    if c = sep then [] :: splitOnChar sep rest
    else
      match splitOnChar sep rest with
      | [] => [[c]]
      | h :: t => (c :: h) :: t

/-- Python `sep.join(parts)` for a one-character separator. -/
def joinChar (sep : Char) : List (List Char) → List Char
  | [] => []
  | [x] => x
  | x :: xs => x ++ sep :: joinChar sep xs

/-- The string branch of rm_genkw_prefix:  remove anything before the first colon.
Mirrors `":".join(s.split(":")[1:])` guarded by `":" in s`. -/
def rm_genkw_prefix (s : String) : String :=
  if ':' ∈ s.data then ⟨joinChar ':' ((splitOnChar ':' s.data).drop 1)⟩
  else s

/-- Python dict lookup on an insertion-ordered association list. -/
def dictFind {V : Type} (d : List (String × V)) (k : String) : Option V :=
  (d.find? fun p => p.1 == k).map Prod.snd

/-- Python dict assignment `d[k] = v`: replaces the value in place when the
key is present, otherwise appends the new pair. -/
def dictInsert {V : Type} (d : List (String × V)) (k : String) (v : V) :
    List (String × V) :=
  if d.any fun p => p.1 == k then d.map fun p => if p.1 == k then (k, v) else p
  else d ++ [(k, v)]

/-- Python `d.update(other)`: assign every pair of `other` into `d`, in
order. -/
def dictUpdate {V : Type} (d other : List (String × V)) : List (String × V) :=
  other.foldl (fun acc p => dictInsert acc p.1 p.2) d

/-- The dict branch of rm_genkw_prefix, rm_genkw_prefix_dict: the Python dict comprehension
mapping every key through the string normalizer; on a key collision the later
insertion wins. -/
def rm_genkw_prefix_dict {V : Type} (d : List (String × V)) :
    List (String × V) :=
  d.foldl (fun acc p => dictInsert acc ( rm_genkw_prefix p.1) p.2) []

/-- Digit run to its numeric value (the characters are assumed decimal
digits). -/
def digitsVal (l : List Char) : Nat :=
  l.foldl (fun acc c => 10 * acc + (c.toNat - 48)) 0

/-- A float obtained from Python `float()` conversion, kept as an exact
decimal: `(m, k)` denotes the value `m / 10^k`.  The adapter performs no
arithmetic on converted values, so the exact decimal reading is adequate. -/
abbrev DecFloat := Int × Nat

/-- The numeric value denoted by a `DecFloat`. -/
def decValue (p : DecFloat) : ℚ := (p.1 : ℚ) / (10 : ℚ) ^ p.2

/-- Model of the Python builtin `float()` applied to a string, for plain
decimal literals: optional sign, digits, optional fractional part, at least
one digit overall.  Exponents, `inf`, `nan` and surrounding whitespace are
outside the modelled subset. -/
def pyFloatOfString (s : String) : Option DecFloat :=
  let signBody : Int × List Char :=
    match s.data with
    | '-' :: rest => (-1, rest)
    | '+' :: rest => (1, rest)
    | l => (1, l)
  let sgn := signBody.1
  let body := signBody.2
  match splitOnChar '.' body with
  | [ipart] =>
    if !ipart.isEmpty && ipart.all Char.isDigit then
      some (sgn * (digitsVal ipart : Int), 0)
    else none
  | [ipart, fpart] =>
    if (!ipart.isEmpty || !fpart.isEmpty) && ipart.all Char.isDigit
        && fpart.all Char.isDigit then
      some (sgn * ((digitsVal ipart : Int) * 10 ^ fpart.length
        + (digitsVal fpart : Int)), fpart.length)
    else none
  | _ => none

/-- Python `float()` on a dictionary value. -/
def pyFloat : PyVal → Option DecFloat
  | .int n => some (n, 0)
  | .str s => pyFloatOfString s

/-- The exception kinds raised in `_get_interpolation_values`: `IOError` and
`ValueError` are distinct Python exception types, distinguishable by the
caller. -/
inductive PyErr
  | ioError
  | valueError (msg : String)
deriving DecidableEq

/-- The dictionary used for parameter lookup: the file-parsed mapping with
keys normalized, then `update`d with `MAGIC_CASES`. -/
def augmentedDict (fileParams : List (String × String)) :
    List (String × PyVal) :=
  dictUpdate ( rm_genkw_prefix_dict (fileParams.map fun p => (p.1, PyVal.str p.2)))
    MAGIC_CASES

/-- The resolver _get_interpolation_values: given parameter names (already
prefix-normalized), obtain the two values to interpolate through from
parameters.txt.  A missing parameters file raises `IOError`; a requested name
absent from the augmented dictionary raises
`ValueError "Parameter name not found"`; a value that does not convert to
float raises the `float()` `ValueError`.  None of these are caught locally. -/
def _get_interpolation_values (int_param_wo_name int_param_go_name : String)
    (paramsFileExists : Bool) (fileParams : List (String × String)) :
    Except PyErr (DecFloat × DecFloat) :=
  if !paramsFileExists then .error .ioError
  else
    match dictFind (augmentedDict fileParams) int_param_wo_name with
    | none => .error (.valueError "Parameter name not found")
    | some wv =>
      match pyFloat wv with
      | none => .error (.valueError "could not convert string to float")
      | some int_param_wo =>
        match dictFind (augmentedDict fileParams) int_param_go_name with
        | none => .error (.valueError "Parameter name not found")
        | some gv =>
          match pyFloat gv with
          | none => .error (.valueError "could not convert string to float")
          | some int_param_go => .ok (int_param_wo, int_param_go)

/-- Model of Python `str.lower()` restricted to ASCII letters (sufficient for
the keyword comparisons performed). -/
def pyLower (s : String) : String :=
  ⟨s.data.map fun c =>
    if 'A' ≤ c ∧ c ≤ 'Z' then Char.ofNat (c.toNat + 32) else c⟩

/-- The arguments `run` passes to the external
`pyscalcli.pyscal_main`. -/
structure PyscalMainCall where
  parametertable : String
  output : String
  sheet_name : Option String
  int_param_wo : Option DecFloat
  int_param_go : Option DecFloat
  slgof : Bool
  family2 : Bool
deriving DecidableEq

/-- Outcome of `run`: `exitError msg` models `_logger.error(msg)` followed by
`sys.exit(1)` (non-zero termination); `uncaught e` models an exception
propagating out of `run`; `delegated c` models reaching the
`pyscalcli.pyscal_main` call with arguments `c` (the external library itself
is not modelled). -/
inductive RunResult
  | exitError (msg : String)
  | uncaught (e : PyErr)
  | delegated (call : PyscalMainCall)
deriving DecidableEq

/-- The scenario selection if/elif chain of `run`: `none` models the error
branch (`sys.exit(1)`), `some (b, go)` gives `do_interpolation` and the
possibly-defaulted GasOil name. -/
def scenario (int_param_wo_name int_param_go_name : String) :
    Option (Bool × String) :=
  if int_param_wo_name ≠ MAGIC_NONE ∧ int_param_go_name ≠ MAGIC_NONE then
    some (true, int_param_go_name)
  else if int_param_wo_name ≠ MAGIC_NONE ∧ int_param_go_name = MAGIC_NONE then
    some (true, int_param_wo_name)
  else if int_param_wo_name = MAGIC_NONE ∧ int_param_go_name = MAGIC_NONE then
    some (false, int_param_go_name)
  else none

/-- The orchestration run: the orchestration of fm_pyscal, with the file system and the
parsed parameters file as explicit inputs. -/
def run (relperm_parameters_file output_filename sheet_name
    int_param_wo_name int_param_go_name slgof : String) (family : Int)
    (relpermFileExists paramsFileExists : Bool)
    (fileParams : List (String × String)) : RunResult :=
  if !relpermFileExists then .exitError "does not exist"
  else
    match scenario ( rm_genkw_prefix int_param_wo_name)
        ( rm_genkw_prefix int_param_go_name) with
    | none => .exitError "WaterOil interpolation parameter missing"
    | some (do_interpolation, go) =>
      if pyLower slgof ∉ (["sgof", "slgof"] : List String) then
        .exitError "Only supports sgof or slgof"
      else if family ∉ ([1, 2] : List Int) then
        .exitError "Family must be either 1 or 2"
      else
        match (if do_interpolation then
            ( _get_interpolation_values ( rm_genkw_prefix int_param_wo_name)
              go paramsFileExists fileParams).map
              (fun p => ((some p.1 : Option DecFloat), (some p.2 : Option DecFloat)))
          else .ok (none, none)) with
        | .error e => .uncaught e
        | .ok v =>
          .delegated ⟨relperm_parameters_file, output_filename,
            (if sheet_name ∈ (["0", MAGIC_NONE] : List String) then none
              else some sheet_name),
            v.1, v.2, pyLower slgof == "slgof", family == 2⟩


/-! ### Helper lemmas -/

theorem splitOnChar_ne_nil (sep : Char) (l : List Char) :
    splitOnChar sep l ≠ [] := by
  cases l with
  | nil => simp [splitOnChar]
  | cons c rest =>
    unfold splitOnChar
    by_cases h : c = sep
    · simp [h]
    · simp only [if_neg h]
      cases splitOnChar sep rest <;> simp

theorem joinChar_splitOnChar (sep : Char) (l : List Char) :
    joinChar sep (splitOnChar sep l) = l := by
  induction l with
  | nil => simp [splitOnChar, joinChar]
  | cons c rest ih =>
    unfold splitOnChar
    by_cases h : c = sep
    · subst h
      simp only [if_pos rfl]
      cases hs : splitOnChar c rest with
      | nil => exact absurd hs (splitOnChar_ne_nil c rest)
      | cons h t =>
        simp only [joinChar, List.nil_append]
        rw [← hs, ih]
    · simp only [if_neg h]
      cases hs : splitOnChar sep rest with
      | nil => exact absurd hs (splitOnChar_ne_nil sep rest)
      | cons hd t =>
        cases t with
        | nil =>
          simp only [joinChar]
          have := ih
          rw [hs] at this
          simp only [joinChar] at this
          rw [this]
        | cons t0 ts =>
          simp only [joinChar]
          have := ih
          rw [hs] at this
          simp only [joinChar] at this
          rw [List.cons_append, this]

theorem splitOnChar_append (sep : Char) (a b : List Char) (h : sep ∉ a) :
    splitOnChar sep (a ++ sep :: b) = a :: splitOnChar sep b := by
  induction a with
  | nil => simp [splitOnChar]
  | cons c a ih =>
    have hc : c ≠ sep := fun hc => h (hc ▸ List.mem_cons_self c a)
    have ha : sep ∉ a := fun ha => h (List.mem_cons_of_mem c ha)
    conv_lhs => rw [List.cons_append, splitOnChar]
    rw [if_neg hc, ih ha]

theorem find?_cons_pos {V : Type} (pr : String × V → Bool) (q : String × V)
    (l : List (String × V)) (h : pr q = true) :
    List.find? pr (q :: l) = some q :=
  List.find?_cons_of_pos l h

theorem find?_cons_neg {V : Type} (pr : String × V → Bool) (q : String × V)
    (l : List (String × V)) (h : pr q = false) :
    List.find? pr (q :: l) = List.find? pr l :=
  List.find?_cons_of_neg l (by simp [h])

theorem find?_map_replace {V : Type} (d : List (String × V)) (k : String)
    (v : V) (h : (d.any fun p => p.1 == k) = true) :
    ((d.map fun p => if p.1 == k then (k, v) else p).find?
      fun p => p.1 == k) = some (k, v) := by
  induction d with
  | nil => simp at h
  | cons q d ih =>
    rw [List.map_cons]
    by_cases hq : (q.1 == k) = true
    · rw [if_pos hq]
      exact find?_cons_pos _ (k, v) _ (by simp)
    · have hq0 : (q.1 == k) = false := by simpa using hq
      rw [if_neg hq, find?_cons_neg _ q _ hq0]
      apply ih
      rcases List.any_eq_true.mp h with ⟨x, hx, hpx⟩
      rcases List.mem_cons.mp hx with rfl | hx'
      · exact absurd hpx hq
      · exact List.any_eq_true.mpr ⟨x, hx', hpx⟩

theorem find?_map_replace_ne {V : Type} (d : List (String × V))
    (k k' : String) (v : V) (hne : k ≠ k') :
    ((d.map fun p => if p.1 == k' then (k', v) else p).find?
      fun p => p.1 == k) = (d.find? fun p => p.1 == k) := by
  induction d with
  | nil => simp
  | cons q d ih =>
    rw [List.map_cons]
    by_cases hq' : (q.1 == k') = true
    · have hqk' : q.1 = k' := by simpa using hq'
      have h1 : ((k', v).1 == k) = false := by
        simp only [beq_eq_false_iff_ne, ne_eq]
        exact fun hh => hne hh.symm
      have h2 : (q.1 == k) = false := by
        simp only [beq_eq_false_iff_ne, ne_eq, hqk']
        exact fun hh => hne hh.symm
      rw [if_pos hq', find?_cons_neg _ (k', v) _ h1, find?_cons_neg _ q _ h2]
      exact ih
    · rw [if_neg hq']
      by_cases hq : (q.1 == k) = true
      · rw [find?_cons_pos _ q _ hq, find?_cons_pos _ q _ hq]
      · have hq0 : (q.1 == k) = false := by simpa using hq
        rw [find?_cons_neg _ q _ hq0, find?_cons_neg _ q _ hq0]
        exact ih

theorem dictFind_dictInsert {V : Type} (d : List (String × V))
    (k k' : String) (v : V) :
    dictFind (dictInsert d k' v) k =
      if k = k' then some v else dictFind d k := by
  unfold dictFind dictInsert
  by_cases hk : k = k'
  · subst hk
    rw [if_pos rfl]
    by_cases h : (d.any fun p => p.1 == k) = true
    · rw [if_pos h, find?_map_replace d k v h]
      rfl
    · rw [if_neg h, List.find?_append]
      have hnone : (d.find? fun p => p.1 == k) = none := by
        rw [List.find?_eq_none]
        intro x hx hpx
        exact h (List.any_eq_true.mpr ⟨x, hx, hpx⟩)
      rw [hnone, Option.none_or, find?_cons_pos _ (k, v) _ (by simp)]
      rfl
  · rw [if_neg hk]
    by_cases h : (d.any fun p => p.1 == k') = true
    · rw [if_pos h, find?_map_replace_ne d k k' v hk]
    · rw [if_neg h, List.find?_append]
      have hone : (([(k', v)]).find? fun p => p.1 == k) = none := by
        rw [List.find?_eq_none]
        intro x hx hpx
        rw [List.mem_singleton.mp hx] at hpx
        have hkk : k' = k := by simpa using hpx
        exact hk hkk.symm
      rw [hone, Option.or_none]

theorem dictFind_dictUpdate_magic {d : List (String × PyVal)} {n : String}
    {v : PyVal} (h : (n, v) ∈ MAGIC_CASES) :
    dictFind (dictUpdate d MAGIC_CASES) n = some v := by
  fin_cases h <;>
    simp [dictUpdate, MAGIC_CASES, List.foldl, dictFind_dictInsert]

theorem magic_values_are_ints (p : String × PyVal) (h : p ∈ MAGIC_CASES) :
    ∃ m : Int, p.2 = .int m := by
  fin_cases h <;> exact ⟨_, rfl⟩

theorem dictFind_dictUpdate_magic_keys {d : List (String × PyVal)}
    {n : String} (h : n ∈ MAGIC_CASES.map Prod.fst) :
    ∃ m : Int, dictFind (dictUpdate d MAGIC_CASES) n = some (.int m) := by
  rcases List.mem_map.mp h with ⟨q, hq, rfl⟩
  rcases magic_values_are_ints q hq with ⟨m, hm⟩
  refine ⟨m, dictFind_dictUpdate_magic ?_⟩
  have : (q.1, PyVal.int m) = q := by
    rw [← hm]
  rw [this]
  exact hq

theorem scenario_invalid {wo go : String} (h1 : wo = MAGIC_NONE)
    (h2 : go ≠ MAGIC_NONE) : scenario wo go = none := by
  simp [scenario, h1, h2]

theorem scenario_both {wo go : String} (h1 : wo ≠ MAGIC_NONE)
    (h2 : go ≠ MAGIC_NONE) : scenario wo go = some (true, go) := by
  simp [scenario, h1, h2]

theorem scenario_wo_only {wo go : String} (h1 : wo ≠ MAGIC_NONE)
    (h2 : go = MAGIC_NONE) : scenario wo go = some (true, wo) := by
  simp [scenario, h1, h2]

theorem scenario_neither {wo go : String} (h1 : wo = MAGIC_NONE)
    (h2 : go = MAGIC_NONE) : scenario wo go = some (false, go) := by
  simp [scenario, h1, h2]

theorem scenario_wo_given {wo : String} (go : String)
    (h1 : wo ≠ MAGIC_NONE) : ∃ g, scenario wo go = some (true, g) := by
  by_cases h2 : go = MAGIC_NONE
  · exact ⟨wo, scenario_wo_only h1 h2⟩
  · exact ⟨go, scenario_both h1 h2⟩

theorem scenario_some {wo go : String}
    (h : wo ≠ MAGIC_NONE ∨ go = MAGIC_NONE) :
    ∃ bg : Bool × String, scenario wo go = some bg := by
  rcases h with h1 | h2
  · rcases scenario_wo_given go h1 with ⟨g, hg⟩
    exact ⟨(true, g), hg⟩
  · by_cases h1 : wo = MAGIC_NONE
    · exact ⟨(false, go), scenario_neither h1 h2⟩
    · exact ⟨(true, wo), scenario_wo_only h1 h2⟩

theorem get_values_no_file (wo go : String)
    (fp : List (String × String)) :
    _get_interpolation_values wo go false fp = .error .ioError := rfl

theorem get_values_not_found {wo : String} (go : String)
    {fp : List (String × String)}
    (h : dictFind (augmentedDict fp) wo = none) :
    _get_interpolation_values wo go true fp
      = .error (.valueError "Parameter name not found") := by
  unfold _get_interpolation_values
  simp only [h]
  rfl

theorem resolve_same_name {n : String} {fp : List (String × String)}
    {v : PyVal} {m : DecFloat}
    (hfind : dictFind (augmentedDict fp) n = some v)
    (hfl : pyFloat v = some m) :
    _get_interpolation_values n n true fp = .ok (m, m) := by
  unfold _get_interpolation_values
  simp only [hfind, hfl]
  rfl

theorem resolve_conv_fail {n : String} {fp : List (String × String)}
    {v : PyVal} (go : String)
    (hfind : dictFind (augmentedDict fp) n = some v)
    (hfl : pyFloat v = none) :
    _get_interpolation_values n go true fp
      = .error (.valueError "could not convert string to float") := by
  unfold _get_interpolation_values
  simp only [hfind, hfl]
  rfl

theorem magic_resolves {d : List (String × String)} {n : String} {m : Int}
    (h : (n, PyVal.int m) ∈ MAGIC_CASES) :
    _get_interpolation_values n n true d = .ok ((m, 0), (m, 0)) := by
  have hfind : dictFind (augmentedDict d) n = some (PyVal.int m) := by
    unfold augmentedDict
    exact dictFind_dictUpdate_magic h
  exact resolve_same_name hfind rfl

/-! ### Claim theorems -/

/-- C6: for every string containing no colon, name normalization returns the
string unchanged; for every string containing one or more colons, it returns
exactly the substring after the first colon, later colons preserved (`a` is
the colon-free part before the first colon, `b` the arbitrary remainder,
which may itself contain colons). -/
theorem C6_normalizer_first_colon :
    (∀ s : String, ':' ∉ s.data → rm_genkw_prefix s = s)
    ∧ (∀ a b : List Char, ':' ∉ a →
        rm_genkw_prefix ⟨a ++ ':' :: b⟩ = ⟨b⟩) := by
  constructor
  · intro s h
    unfold rm_genkw_prefix
    rw [if_neg h]
  · intro a b h
    show (if ':' ∈ (a ++ ':' :: b) then
        (⟨joinChar ':' ((splitOnChar ':' (a ++ ':' :: b)).drop 1)⟩ : String)
      else ⟨a ++ ':' :: b⟩) = ⟨b⟩
    rw [if_pos (by simp), splitOnChar_append ':' a b h]
    simp only [List.drop_succ_cons, List.drop_zero]
    rw [joinChar_splitOnChar]

/-- C6 witness: a plain name is unchanged; a namespaced name with a second
colon keeps everything after the first colon. -/
theorem C6_normalizer_first_colon_witness :
    rm_genkw_prefix "abc" = "abc"
    ∧ rm_genkw_prefix ⟨['N', 'S'] ++ ':' :: ['X', ':', 'Y']⟩
        = ⟨['X', ':', 'Y']⟩ :=
  ⟨C6_normalizer_first_colon.1 "abc" (by decide),
   C6_normalizer_first_colon.2 ['N', 'S'] ['X', ':', 'Y'] (by decide)⟩

/-- C2 counterexample: MAGIC_CASES has three names mapping to +1
("__HIGH__", "__OPT__", "__OPTIMISTIC__"), not exactly two as claimed. -/
theorem C2_counterexample :
    ((MAGIC_CASES.filter fun p => p.2 == PyVal.int 1).map Prod.fst)
      = ["__HIGH__", "__OPT__", "__OPTIMISTIC__"]
    ∧ (MAGIC_CASES.filter fun p => p.2 == PyVal.int 1).length ≠ 2 :=
  ⟨by decide, by decide⟩

/-- C2 amended: the fixed augmentation consists of exactly one name for
"base" mapping to 0, exactly three names for "low/pessimistic" mapping to
-1, and exactly three names for "high/optimistic" mapping to +1 — seven
distinct names in total, so no entry carries any other value. -/
theorem C2_magic_cases_census :
    ((MAGIC_CASES.filter fun p => p.2 == PyVal.int 0).map Prod.fst)
      = ["__BASE__"]
    ∧ ((MAGIC_CASES.filter fun p => p.2 == PyVal.int (-1)).map Prod.fst)
      = ["__LOW__", "__PESS__", "__PESSIMISTIC__"]
    ∧ ((MAGIC_CASES.filter fun p => p.2 == PyVal.int 1).map Prod.fst)
      = ["__HIGH__", "__OPT__", "__OPTIMISTIC__"]
    ∧ MAGIC_CASES.length = 7
    ∧ (MAGIC_CASES.map Prod.fst).Nodup :=
  ⟨by decide, by decide, by decide, by decide, by decide⟩

/-- C1 counterexample: with the parameters file defining __HIGH__ as 0.5,
resolving __HIGH__ yields the magic constant value 1, not the file value
0.5 (numerically one half): the dict update with MAGIC_CASES overwrites
the file-loaded key, so the file's value does NOT take precedence. -/
theorem C1_counterexample :
    _get_interpolation_values "__HIGH__" "__HIGH__" true [("__HIGH__", "0.5")]
      = .ok ((1, 0), (1, 0))
    ∧ pyFloatOfString "0.5" = some (5, 1)
    ∧ decValue (1, 0) ≠ decValue (5, 1) := by
  refine ⟨by decide, by decide, ?_⟩
  norm_num [decValue]

/-- C1 amended: precedence is the reverse of the claim — the magic-constant
update overwrites file-loaded keys, so resolving a magic scenario-constant
name always returns the magic constant's value, whether or not the file
defines that name; file entries win only for non-magic names. -/
theorem C1_magic_overrides_file (d : List (String × String)) (n : String)
    (m : Int) (h : (n, PyVal.int m) ∈ MAGIC_CASES) :
    _get_interpolation_values n n true d = .ok ((m, 0), (m, 0)) :=
  magic_resolves h

/-- C1 amended witness: the file defines __HIGH__ 0.5 yet the resolved value
is the magic 1. -/
theorem C1_magic_overrides_file_witness :
    _get_interpolation_values "__HIGH__" "__HIGH__" true [("__HIGH__", "0.5")]
      = .ok ((1, 0), (1, 0)) :=
  C1_magic_overrides_file [("__HIGH__", "0.5")] "__HIGH__" 1 (by decide)

/-- C9: whenever interpolation is requested, the parameters file exists and
the requested (normalized) name is one of the seven magic names, the lookup
in the augmented dictionary succeeds for every possible file content, so the
parameter-not-found branch is unreachable for that name; resolving such a
name even succeeds overall. -/
theorem C9_magic_never_not_found (fp : List (String × String)) (n : String)
    (h : n ∈ MAGIC_CASES.map Prod.fst) :
    (dictFind (augmentedDict fp) n).isSome = true
    ∧ ∃ p, _get_interpolation_values n n true fp = .ok p := by
  rcases List.mem_map.mp h with ⟨q, hq, rfl⟩
  rcases magic_values_are_ints q hq with ⟨m, hm⟩
  have hq' : (q.1, PyVal.int m) ∈ MAGIC_CASES := by
    have hqe : (q.1, PyVal.int m) = q := by rw [← hm]
    rw [hqe]
    exact hq
  have hfind : dictFind (augmentedDict fp) q.1 = some (PyVal.int m) := by
    unfold augmentedDict
    exact dictFind_dictUpdate_magic hq'
  exact ⟨by rw [hfind]; rfl, ⟨((m, 0), (m, 0)), magic_resolves hq'⟩⟩

/-- C9 witness: __LOW__ is found in the augmented dictionary of a file that
does not define it, and resolution succeeds. -/
theorem C9_magic_never_not_found_witness :
    (dictFind (augmentedDict [("SOMEKEY", "0.2")]) "__LOW__").isSome = true
    ∧ ∃ p, _get_interpolation_values "__LOW__" "__LOW__" true
        [("SOMEKEY", "0.2")] = .ok p :=
  C9_magic_never_not_found [("SOMEKEY", "0.2")] "__LOW__" (by decide)

/-- C3 counterexample: an invocation whose curve-keyword-variant is invalid
AND whose scenario combination is invalid (gas-oil name given, water-oil
sentinel) fails with the missing-water-oil error, not the invalid-variant
error: the scenario check runs before the variant check. -/
theorem C3_counterexample :
    run "relperm.csv" "out.inc" "__NONE__" "__NONE__" "GO_PARAM"
        "not_a_keyword" 1 true true []
      = .exitError "WaterOil interpolation parameter missing"
    ∧ run "relperm.csv" "out.inc" "__NONE__" "__NONE__" "GO_PARAM"
        "not_a_keyword" 1 true true []
      ≠ .exitError "Only supports sgof or slgof" :=
  ⟨by decide, by decide⟩

/-- C3 amended: the actual order is: (1) relperm-file existence, then
(2) the scenario-combination determination (which can already fail), then
(3) the sgof/slgof variant check, then (4) the family check, and only after
all four the interpolation values are resolved (so a missing parameters
file surfaces only past every validation). -/
theorem C3_validation_order (rf outp sn wo_name go_name sl : String)
    (fam : Int) (pe : Bool) (fp : List (String × String)) :
    (run rf outp sn wo_name go_name sl fam false pe fp
      = .exitError "does not exist")
    ∧ ( rm_genkw_prefix wo_name = MAGIC_NONE →
        rm_genkw_prefix go_name ≠ MAGIC_NONE →
        run rf outp sn wo_name go_name sl fam true pe fp
          = .exitError "WaterOil interpolation parameter missing")
    ∧ (( rm_genkw_prefix wo_name ≠ MAGIC_NONE ∨
         rm_genkw_prefix go_name = MAGIC_NONE) →
        pyLower sl ∉ (["sgof", "slgof"] : List String) →
        run rf outp sn wo_name go_name sl fam true pe fp
          = .exitError "Only supports sgof or slgof")
    ∧ (( rm_genkw_prefix wo_name ≠ MAGIC_NONE ∨
         rm_genkw_prefix go_name = MAGIC_NONE) →
        pyLower sl ∈ (["sgof", "slgof"] : List String) →
        fam ∉ ([1, 2] : List Int) →
        run rf outp sn wo_name go_name sl fam true pe fp
          = .exitError "Family must be either 1 or 2")
    ∧ ( rm_genkw_prefix wo_name ≠ MAGIC_NONE →
        pyLower sl ∈ (["sgof", "slgof"] : List String) →
        fam ∈ ([1, 2] : List Int) →
        run rf outp sn wo_name go_name sl fam true false fp
          = .uncaught .ioError) := by
  refine ⟨rfl, ?_, ?_, ?_, ?_⟩
  · intro hwo hgo
    unfold run
    simp only [scenario_invalid hwo hgo]
    rfl
  · intro hsc hsl
    rcases scenario_some hsc with ⟨⟨b, g⟩, hg⟩
    unfold run
    simp only [hg]
    rw [if_pos hsl]
    rfl
  · intro hsc hsl hfam
    rcases scenario_some hsc with ⟨⟨b, g⟩, hg⟩
    unfold run
    simp only [hg]
    rw [if_neg (not_not_intro hsl), if_pos hfam]
    rfl
  · intro hwo hsl hfam
    rcases scenario_wo_given ( rm_genkw_prefix go_name) hwo with ⟨g, hg⟩
    unfold run
    simp only [hg]
    rw [if_neg (not_not_intro hsl), if_neg (not_not_intro hfam),
      get_values_no_file]
    rfl

/-- C3 amended witness: one concrete invocation per stage of the pipeline. -/
theorem C3_validation_order_witness :
    run "f.csv" "o.inc" "s" "A" "B" "sgof" 1 false true []
      = .exitError "does not exist"
    ∧ run "f.csv" "o.inc" "s" "__NONE__" "B" "bad" 3 true true []
      = .exitError "WaterOil interpolation parameter missing"
    ∧ run "f.csv" "o.inc" "s" "A" "B" "bad" 3 true true []
      = .exitError "Only supports sgof or slgof"
    ∧ run "f.csv" "o.inc" "s" "A" "B" "SLGOF" 3 true true []
      = .exitError "Family must be either 1 or 2"
    ∧ run "f.csv" "o.inc" "s" "A" "B" "sgof" 1 true false []
      = .uncaught .ioError :=
  ⟨(C3_validation_order "f.csv" "o.inc" "s" "A" "B" "sgof" 1 true []).1,
   (C3_validation_order "f.csv" "o.inc" "s" "__NONE__" "B" "bad" 3 true
      []).2.1 (by decide) (by decide),
   (C3_validation_order "f.csv" "o.inc" "s" "A" "B" "bad" 3 true []).2.2.1
      (Or.inl (by decide)) (by decide),
   (C3_validation_order "f.csv" "o.inc" "s" "A" "B" "SLGOF" 3 true
      []).2.2.2.1 (Or.inl (by decide)) (by decide) (by decide),
   (C3_validation_order "f.csv" "o.inc" "s" "A" "B" "sgof" 1 true
      []).2.2.2.2 (by decide) (by decide) (by decide)⟩

/-- C4: whenever the normalized gas-oil name is given (not the sentinel) but
the normalized water-oil name is the sentinel, the run terminates with the
non-zero exit (`exitError`) before any attempt to read the parameters file:
the outcome is the same for every parameters-file state (`pe`, `fp`
arbitrary and unread). -/
theorem C4_go_without_wo_exits (rf outp sn wo_name go_name sl : String)
    (fam : Int) (pe : Bool) (fp : List (String × String))
    (hwo : rm_genkw_prefix wo_name = MAGIC_NONE)
    (hgo : rm_genkw_prefix go_name ≠ MAGIC_NONE) :
    run rf outp sn wo_name go_name sl fam true pe fp
      = .exitError "WaterOil interpolation parameter missing" := by
  unfold run
  simp only [scenario_invalid hwo hgo]
  rfl

/-- C4 witness: with the parameters file absent and the parsed mapping
empty, the invalid combination still exits with the missing-water-oil
error. -/
theorem C4_go_without_wo_exits_witness :
    run "relperm.csv" "out.inc" "sheet" "__NONE__" "GOPARAM" "sgof" 1 true
        false [] = .exitError "WaterOil interpolation parameter missing" :=
  C4_go_without_wo_exits "relperm.csv" "out.inc" "sheet" "__NONE__"
    "GOPARAM" "sgof" 1 false [] (by decide) (by decide)

/-- C5: when the (normalized) water-oil name is given and the gas-oil name
is the sentinel, the resolver is invoked with the same name twice and the
two resolved values are equal; at the orchestration level the delegated call
carries equal, present water-oil and gas-oil interpolation values. -/
theorem C5_wo_only_shared_value :
    (∀ (n : String) (pe : Bool) (fp : List (String × String))
        (p : DecFloat × DecFloat),
        _get_interpolation_values n n pe fp = .ok p → p.1 = p.2)
    ∧ (∀ (rf outp sn wo_name go_name sl : String) (fam : Int) (pe : Bool)
        (fp : List (String × String)) (c : PyscalMainCall),
        rm_genkw_prefix wo_name ≠ MAGIC_NONE →
        rm_genkw_prefix go_name = MAGIC_NONE →
        run rf outp sn wo_name go_name sl fam true pe fp = .delegated c →
        c.int_param_wo = c.int_param_go ∧ c.int_param_wo.isSome = true) := by
  have part1 : ∀ (n : String) (pe : Bool) (fp : List (String × String))
      (p : DecFloat × DecFloat),
      _get_interpolation_values n n pe fp = .ok p → p.1 = p.2 := by
    intro n pe fp p hp
    cases pe with
    | false =>
      rw [get_values_no_file] at hp
      exact absurd hp (by simp)
    | true =>
      cases hfind : dictFind (augmentedDict fp) n with
      | none =>
        rw [get_values_not_found n hfind] at hp
        exact absurd hp (by simp)
      | some v =>
        cases hfl : pyFloat v with
        | none =>
          rw [resolve_conv_fail n hfind hfl] at hp
          exact absurd hp (by simp)
        | some m =>
          rw [resolve_same_name hfind hfl] at hp
          have hpm : (m, m) = p := by
            simpa using hp
          rw [← hpm]
  refine ⟨part1, ?_⟩
  intro rf outp sn wo_name go_name sl fam pe fp c hwo hgo hrun
  unfold run at hrun
  simp only [scenario_wo_only hwo hgo] at hrun
  by_cases hsl : pyLower sl ∉ (["sgof", "slgof"] : List String)
  · rw [if_pos hsl] at hrun
    exact absurd hrun (by simp)
  · rw [if_neg hsl] at hrun
    by_cases hfam : fam ∉ ([1, 2] : List Int)
    · rw [if_pos hfam] at hrun
      exact absurd hrun (by simp)
    · rw [if_neg hfam] at hrun
      cases hres : _get_interpolation_values ( rm_genkw_prefix wo_name)
          ( rm_genkw_prefix wo_name) pe fp with
      | error e =>
        rw [hres] at hrun
        exact absurd hrun (by simp [Except.map])
      | ok p =>
        rw [hres] at hrun
        simp only [Except.map] at hrun
        have hpp := part1 _ _ _ _ hres
        have hrun2 : RunResult.delegated
            ⟨rf, outp,
              (if sn ∈ (["0", MAGIC_NONE] : List String) then none
                else some sn),
              some p.1, some p.2, pyLower sl == "slgof", fam == 2⟩
            = RunResult.delegated c := hrun
        injection hrun2 with hc
        rw [← hc]
        exact ⟨by rw [hpp], rfl⟩

/-- C5 witness: resolving the same name twice gives an equal pair, and a
concrete water-oil-only run delegates equal present values. -/
theorem C5_wo_only_shared_value_witness :
    ((((3 : Int), (1 : Nat)), ((3 : Int), (1 : Nat))).1
      = (((3 : Int), (1 : Nat)), ((3 : Int), (1 : Nat))).2)
    ∧ ((⟨"f.csv", "o.inc", none, some (3, 1), some (3, 1), false, false⟩ :
          PyscalMainCall).int_param_wo
        = (⟨"f.csv", "o.inc", none, some (3, 1), some (3, 1), false,
            false⟩ : PyscalMainCall).int_param_go
      ∧ (⟨"f.csv", "o.inc", none, some (3, 1), some (3, 1), false,
            false⟩ : PyscalMainCall).int_param_wo.isSome = true) :=
  ⟨C5_wo_only_shared_value.1 "X" true [("X", "0.3")] ((3, 1), (3, 1))
      (by decide),
   C5_wo_only_shared_value.2 "f.csv" "o.inc" "__NONE__" "WOPARAM" "__NONE__"
      "sgof" 1 true [("WOPARAM", "0.3")]
      ⟨"f.csv", "o.inc", none, some (3, 1), some (3, 1), false, false⟩
      (by decide) (by decide) (by decide)⟩

/-- C7: a missing parameters file raises the I/O error while a requested
name absent from the augmented table raises the value error; the two kinds
are distinct, and both propagate uncaught out of the orchestration (as
`uncaught`, not `exitError`), so the caller can distinguish them. -/
theorem C7_error_kinds_distinguishable :
    (∀ (wo go : String) (fp : List (String × String)),
        _get_interpolation_values wo go false fp = .error .ioError)
    ∧ (∀ (wo go : String) (fp : List (String × String)),
        dictFind (augmentedDict fp) wo = none →
        _get_interpolation_values wo go true fp
          = .error (.valueError "Parameter name not found"))
    ∧ (∀ msg : String, PyErr.ioError ≠ PyErr.valueError msg)
    ∧ (∀ (rf outp sn wo_name go_name sl : String) (fam : Int)
        (fp : List (String × String)),
        rm_genkw_prefix wo_name ≠ MAGIC_NONE →
        pyLower sl ∈ (["sgof", "slgof"] : List String) →
        fam ∈ ([1, 2] : List Int) →
        run rf outp sn wo_name go_name sl fam true false fp
          = .uncaught .ioError)
    ∧ (∀ (rf outp sn wo_name go_name sl : String) (fam : Int)
        (fp : List (String × String)),
        rm_genkw_prefix wo_name ≠ MAGIC_NONE →
        dictFind (augmentedDict fp) ( rm_genkw_prefix wo_name) = none →
        pyLower sl ∈ (["sgof", "slgof"] : List String) →
        fam ∈ ([1, 2] : List Int) →
        run rf outp sn wo_name go_name sl fam true true fp
          = .uncaught (.valueError "Parameter name not found")) := by
  refine ⟨get_values_no_file, fun wo go fp h => get_values_not_found go h,
    fun msg h => PyErr.noConfusion h, ?_, ?_⟩
  · intro rf outp sn wo_name go_name sl fam fp hwo hsl hfam
    rcases scenario_wo_given ( rm_genkw_prefix go_name) hwo with ⟨g, hg⟩
    unfold run
    simp only [hg]
    rw [if_neg (not_not_intro hsl), if_neg (not_not_intro hfam),
      get_values_no_file]
    rfl
  · intro rf outp sn wo_name go_name sl fam fp hwo hfind hsl hfam
    rcases scenario_wo_given ( rm_genkw_prefix go_name) hwo with ⟨g, hg⟩
    unfold run
    simp only [hg]
    rw [if_neg (not_not_intro hsl), if_neg (not_not_intro hfam),
      get_values_not_found g hfind]
    rfl

/-- C7 witness: the two failure kinds at concrete inputs, their
distinctness, and their uncaught propagation. -/
theorem C7_error_kinds_distinguishable_witness :
    _get_interpolation_values "A" "A" false []
      = .error .ioError
    ∧ _get_interpolation_values "A" "A" true []
      = .error (.valueError "Parameter name not found")
    ∧ PyErr.ioError ≠ PyErr.valueError "Parameter name not found"
    ∧ run "f.csv" "o.inc" "s" "A" "B" "sgof" 1 true false []
      = .uncaught .ioError
    ∧ run "f.csv" "o.inc" "s" "A" "B" "sgof" 1 true true []
      = .uncaught (.valueError "Parameter name not found") :=
  ⟨C7_error_kinds_distinguishable.1 "A" "A" [],
   C7_error_kinds_distinguishable.2.1 "A" "A" [] (by decide),
   C7_error_kinds_distinguishable.2.2.1 "Parameter name not found",
   C7_error_kinds_distinguishable.2.2.2.1 "f.csv" "o.inc" "s" "A" "B"
      "sgof" 1 [] (by decide) (by decide) (by decide),
   C7_error_kinds_distinguishable.2.2.2.2 "f.csv" "o.inc" "s" "A" "B"
      "sgof" 1 [] (by decide) (by decide) (by decide) (by decide)⟩

/-- C8: because the requested names are prefix-normalized before the
sentinel comparison, a water-oil name whose part after the first colon is
the sentinel counts as unspecified: with the gas-oil argument equal to the
sentinel, no interpolation is performed at all — the delegated call carries
absent interpolation values, for every parameters-file state. -/
theorem C8_namespaced_sentinel_skips_interpolation
    (rf outp sn wo_name sl : String) (fam : Int) (pe : Bool)
    (fp : List (String × String))
    (hwo : rm_genkw_prefix wo_name = MAGIC_NONE)
    (hsl : pyLower sl ∈ (["sgof", "slgof"] : List String))
    (hfam : fam ∈ ([1, 2] : List Int)) :
    run rf outp sn wo_name "__NONE__" sl fam true pe fp
      = .delegated ⟨rf, outp,
          (if sn ∈ (["0", MAGIC_NONE] : List String) then none
            else some sn),
          none, none, pyLower sl == "slgof", fam == 2⟩ := by
  have hgo : rm_genkw_prefix "__NONE__" = MAGIC_NONE := by decide
  unfold run
  simp only [scenario_neither hwo hgo]
  rw [if_neg (not_not_intro hsl), if_neg (not_not_intro hfam)]
  rfl

/-- C8 witness: the namespaced sentinel "NS:__NONE__" leads to a successful
delegation with no interpolation, even with the parameters file absent. -/
theorem C8_namespaced_sentinel_skips_interpolation_witness :
    run "relperm.csv" "out.inc" "sheet" "NS:__NONE__" "__NONE__" "sgof" 1
        true false []
      = .delegated ⟨"relperm.csv", "out.inc",
          (if "sheet" ∈ (["0", MAGIC_NONE] : List String) then none
            else some "sheet"),
          none, none, pyLower "sgof" == "slgof", (1 : Int) == 2⟩ :=
  C8_namespaced_sentinel_skips_interpolation "relperm.csv" "out.inc"
    "sheet" "NS:__NONE__" "sgof" 1 false [] (by decide) (by decide)
    (by decide)

/-- C10: the adapter performs no range validation on resolved values: any
value the lookup-and-float-conversion produces — of any magnitude — is
forwarded unchanged as both interpolation arguments of the delegated
external call. -/
theorem C10_values_forwarded_unchanged (rf outp wo_name sl : String)
    (fam : Int) (fp : List (String × String)) (v : PyVal) (m : DecFloat)
    (hwo : rm_genkw_prefix wo_name ≠ MAGIC_NONE)
    (hfind : dictFind (augmentedDict fp) ( rm_genkw_prefix wo_name)
      = some v)
    (hfl : pyFloat v = some m)
    (hsl : pyLower sl ∈ (["sgof", "slgof"] : List String))
    (hfam : fam ∈ ([1, 2] : List Int)) :
    run rf outp "sheet" wo_name "__NONE__" sl fam true true fp
      = .delegated ⟨rf, outp, some "sheet", some m, some m,
          pyLower sl == "slgof", fam == 2⟩ := by
  have hgo : rm_genkw_prefix "__NONE__" = MAGIC_NONE := by decide
  unfold run
  simp only [scenario_wo_only hwo hgo]
  rw [if_neg (not_not_intro hsl), if_neg (not_not_intro hfam),
    resolve_same_name hfind hfl]
  rfl

/-- C10 witness: the file value 5.0 — numerically 5, far outside [-1, 1] —
is forwarded unchanged to the external call. -/
theorem C10_values_forwarded_unchanged_witness :
    run "relperm.csv" "out.inc" "sheet" "MYPARAM" "__NONE__" "sgof" 1 true
        true [("MYPARAM", "5.0")]
      = .delegated ⟨"relperm.csv", "out.inc", some "sheet", some (50, 1),
          some (50, 1), pyLower "sgof" == "slgof", (1 : Int) == 2⟩
    ∧ decValue (50, 1) = 5
    ∧ ¬((-1 : ℚ) ≤ decValue (50, 1) ∧ decValue (50, 1) ≤ 1) :=
  ⟨C10_values_forwarded_unchanged "relperm.csv" "out.inc" "MYPARAM" "sgof"
      1 [("MYPARAM", "5.0")] (.str "5.0") (50, 1) (by decide) (by decide)
      (by decide) (by decide) (by decide),
   by norm_num [decValue],
   by norm_num [decValue]⟩

end FmPyscal
